import Mathlib

/-!
Shallow embedding of the COREP reporting assistant core
(`retriever.py`, `llm_corep.py`, `template_mapper.py`, `validator.py`).

Python `None`-able numeric amounts become `Option ℚ` (Python floats are
modelled as exact rationals; every amount the code parses is a decimal
integer, possibly scaled by 1000, so no rounding behaviour is relevant to
the claims).  Python dictionaries produced by the pipeline become
structures whose optional keys are `Option` fields; dictionary iteration
follows the fixed insertion order used by the generator
(CET1, AT1, Tier2; and inside CET1: ordinary_share_capital,
retained_earnings, intangibles_deduction).
-/

namespace Corep

/-- A `{source, text}` document (`data_loader` output consumed by the
retriever and the generator). -/
structure Doc where
  source : String
  text : String
deriving DecidableEq

/-- One leaf capital component dictionary, as built by
`SimpleCorepGenerator.generate_corep_output` in `llm_corep.py`:
`{amount, corep_row, justification_refs, explanation}`. -/
structure Component where
  amount : Option ℚ
  corep_row : String
  justification_refs : List String
  explanation : String
deriving DecidableEq

/-- The `CET1` tier dictionary; each component key may be absent. -/
structure CET1Tier where
  ordinary_share_capital : Option Component
  retained_earnings : Option Component
  intangibles_deduction : Option Component
deriving DecidableEq

/-- The `AT1` / `Tier2` tier dictionaries; the `instruments` key may be
absent. -/
structure InstrTier where
  instruments : Option Component
deriving DecidableEq

/-- The `own_funds` dictionary with its three tier keys. -/
structure OwnFunds where
  CET1 : Option CET1Tier
  AT1 : Option InstrTier
  Tier2 : Option InstrTier
deriving DecidableEq

/-- A `data_gaps` entry. -/
structure Gap where
  field : String
  issue : String
  suggestion : String
deriving DecidableEq

/-- The `summary` dictionary of a structured record.  The pipeline always
writes all four keys (possibly with value `None`), so each key is an
`Option ℚ` value (`none` = Python `None`). -/
structure Summary where
  total_cet1 : Option ℚ
  total_at1 : Option ℚ
  total_tier2 : Option ℚ
  total_own_funds : Option ℚ
deriving DecidableEq

/-- The structured COREP record (the dictionary produced by
`generate_corep_output` and consumed by the mapper and the validator).
Top-level keys may be absent (`Option`). -/
structure CorepData where
  template : Option String
  currency : Option String
  reporting_date : Option String
  own_funds : Option OwnFunds
  data_gaps : List Gap
  summary : Option Summary
deriving DecidableEq

/-! ## Pattern extraction (`llm_corep.py`, `SimpleCorepGenerator`)

The five regexes in `SimpleCorepGenerator.patterns` all share one shape:

  `£?(\d+(?:,\d+)*)\s*(?:million|m|million|bn|billion)?\s*(?:K1|K2|...)`

differing only in the keyword alternatives `K1|K2|...`.  The matcher
below implements exactly this shape over lists of characters, with
Python `re.search` semantics (leftmost starting position; within one
position the quantifiers here are effectively possessive because every
give-back leaves a digit, a comma or whitespace where a letter-initial
unit or keyword would have to match, so trying each unit alternative
with maximal digit/whitespace spans is equivalent to full backtracking).
-/

/-- ASCII lowering, the fragment of Python `str.lower` exercised by the
inputs of this system. -/
def pyLower (c : Char) : Char :=
  if 'A' ≤ c ∧ c ≤ 'Z' then Char.ofNat (c.toNat + 32) else c

/-- Python regex `\s` over the ASCII range. -/
def isPySpace (c : Char) : Bool :=
  c == ' ' || c == '\t' || c == '\n' || c == '\r' ||
    c == Char.ofNat 11 || c == Char.ofNat 12

/-- Greedy parse of the regex fragment `(?:,\d+)*` with explicit fuel
(structural recursion, so the kernel can evaluate it; each step consumes
at least two characters, so `l.length` fuel is always enough). -/
def commaGroupsF : ℕ → List Char → List Char × List Char
  | 0, l => ([], l)
  | fuel + 1, l =>
    match l with
    | ',' :: rest =>
      let ds := rest.takeWhile Char.isDigit
      if ds.isEmpty then ([], ',' :: rest)
      else
        let (g, r) := commaGroupsF fuel (rest.dropWhile Char.isDigit)
        (',' :: (ds ++ g), r)
    | _ => ([], l)

/-- Greedy parse of the regex fragment `(?:,\d+)*`: consumes comma-digit
groups and returns the consumed span together with the rest. -/
def commaGroups (l : List Char) : List Char × List Char :=
  commaGroupsF l.length l

/-- Greedy parse of `\d+(?:,\d+)*` (the capture group of every pattern):
returns the group-1 span and the rest, or `none` when no digit starts
here. -/
def parseNumber (l : List Char) : Option (List Char × List Char) :=
  let ds := l.takeWhile Char.isDigit
  if ds.isEmpty then none
  else
    let (g, r) := commaGroups (l.dropWhile Char.isDigit)
    some (ds ++ g, r)

/-- The unit alternation `(?:million|m|million|bn|billion)?`, in source
order, with the empty alternative for the `?`. -/
def unitAlts : List (List Char) :=
  ["million".data, "m".data, "million".data, "bn".data, "billion".data, []]

/-- Try to match one pattern at this exact position; returns the group-1
span on success. -/
def matchAt (kws : List (List Char)) (s : List Char) : Option (List Char) :=
  let s1 := match s with
    | '£' :: t => t
    | _ => s
  match parseNumber s1 with
  | none => none
  | some (grp, rest) =>
    let rest2 := rest.dropWhile isPySpace
    if unitAlts.any fun u =>
        u.isPrefixOf rest2 &&
          kws.any fun kw =>
            kw.isPrefixOf ((rest2.drop u.length).dropWhile isPySpace)
    then some grp else none

/-- Python `re.search`: scan starting positions left to right, return the
group-1 span of the leftmost match. -/
def reSearch (kws : List (List Char)) : List Char → Option (List Char)
  | [] => none
  | s@(_ :: t) =>
    match matchAt kws s with
    | some g => some g
    | none => reSearch kws t

/-- Source `needle in hay` on character lists (Python substring test). -/
def containsSub (needle : List Char) : List Char → Bool
  | [] => needle.isEmpty
  | s@(_ :: t) => needle.isPrefixOf s || containsSub needle t

/-- Source `float(amount_str)` for a comma-stripped digit string. -/
def digitsToNat (l : List Char) : ℕ :=
  l.foldl (fun a c => a * 10 + (c.toNat - 48)) 0

/-- Source `SimpleCorepGenerator.extract_amount`: search the lowered text for the
pattern with the given keyword alternatives, parse the captured number
(thousands separators stripped), and multiply by 1000 when the whole
lowered text contains `billion` or `bn`. -/
def extract_amount (kws : List (List Char)) (text : String) : Option ℚ :=
  let lt := text.data.map pyLower
  match reSearch kws lt with
  | none => none
  | some grp =>
    let amt : ℚ := digitsToNat (grp.filter fun c => c ≠ ',')
    if containsSub "billion".data lt || containsSub "bn".data lt then
      some (amt * 1000)
    else some amt

/-- Keyword alternatives of `patterns["ordinary_share_capital"]`. -/
def ordinaryKws : List (List Char) := ["ordinary".data, "share".data, "capital".data]

/-- Keyword alternatives of `patterns["retained_earnings"]`. -/
def retainedKws : List (List Char) := ["retained".data, "earnings".data]

/-- Keyword alternatives of `patterns["at1_instruments"]`. -/
def at1Kws : List (List Char) := ["at1".data, "at 1".data, "additional".data]

/-- Keyword alternatives of `patterns["intangible_assets"]`. -/
def intangibleKws : List (List Char) := ["intangible".data, "goodwill".data, "assets".data]

/-- Keyword alternatives of `patterns["tier2_instruments"]`. -/
def tier2Kws : List (List Char) := ["tier2".data, "tier 2".data, "subordinated".data]

/-- Python truthiness of an optional float (`None` and `0.0` are falsy). -/
def pyTruthy (o : Option ℚ) : Bool :=
  match o with
  | none => false
  | some a => a != 0

/-- Python `x or 0` for an optional float. -/
def pyOrZero (o : Option ℚ) : ℚ :=
  match o with
  | none => 0
  | some a => if a == 0 then 0 else a

/-- Source `[doc["source"] for doc in retrieved_docs[:2]]`. -/
def refs2 (docs : List Doc) : List String :=
  (docs.take 2).map fun d => d.source

/-- Source `SimpleCorepGenerator.generate_corep_output`: rule-based extraction of
the five component amounts from the query, totals computed with the
absent-when-not-positive policy, and the fully populated record. -/
def generate_corep_output (user_query : String) (retrieved_docs : List Doc) :
    CorepData :=
  let cet1_ordinary := extract_amount ordinaryKws user_query
  let cet1_retained := extract_amount retainedKws user_query
  let cet1_intangibles := extract_amount intangibleKws user_query
  let at1_amount := extract_amount at1Kws user_query
  let tier2_amount := extract_amount tier2Kws user_query
  let total_cet1 :=
    pyOrZero cet1_ordinary + pyOrZero cet1_retained - pyOrZero cet1_intangibles
  let total_at1 := pyOrZero at1_amount
  let total_tier2 := pyOrZero tier2_amount
  let total_own_funds := total_cet1 + total_at1 + total_tier2
  { template := some "C 01.00"
    currency := some "GBP"
    reporting_date := some "2026-01-31"
    own_funds := some
      { CET1 := some
          { ordinary_share_capital := some
              { amount := cet1_ordinary
                corep_row := "010"
                justification_refs := refs2 retrieved_docs
                explanation :=
                  if pyTruthy cet1_ordinary then "Extracted from user query"
                  else "Not found in query" }
            retained_earnings := some
              { amount := cet1_retained
                corep_row := "020"
                justification_refs := refs2 retrieved_docs
                explanation :=
                  if pyTruthy cet1_retained then "Extracted from user query"
                  else "Not found in query" }
            intangibles_deduction := some
              { amount := cet1_intangibles
                corep_row := "350"
                justification_refs := refs2 retrieved_docs
                explanation :=
                  if pyTruthy cet1_intangibles then "Extracted from user query"
                  else "Not found in query" } }
        AT1 := some
          { instruments := some
              { amount := at1_amount
                corep_row := "120"
                justification_refs := refs2 retrieved_docs
                explanation :=
                  if pyTruthy at1_amount then "Extracted from user query"
                  else "Not found in query" } }
        Tier2 := some
          { instruments := some
              { amount := tier2_amount
                corep_row := "200"
                justification_refs := refs2 retrieved_docs
                explanation :=
                  if pyTruthy tier2_amount then "Extracted from user query"
                  else "Not found in query" } } }
    data_gaps :=
      (if pyTruthy cet1_ordinary then [] else
        [{ field := "ordinary_share_capital"
           issue := "Amount not found in user query"
           suggestion := "Please specify ordinary share capital amount" }]) ++
      (if pyTruthy cet1_retained then [] else
        [{ field := "retained_earnings"
           issue := "Amount not found in user query"
           suggestion := "Please specify retained earnings amount" }])
    summary := some
      { total_cet1 := if total_cet1 > 0 then some total_cet1 else none
        total_at1 := if total_at1 > 0 then some total_at1 else none
        total_tier2 := if total_tier2 > 0 then some total_tier2 else none
        total_own_funds :=
          if total_own_funds > 0 then some total_own_funds else none } }

/-! ## Template mapper (`template_mapper.py`) -/

/-- Source `map_to_template`: emit one `(row_number, description, amount)` tuple
per component present in the record, in the fixed emission
order: CET1 010, 020, 350, then AT1 120, then Tier2 200. -/
def map_to_template (data : CorepData) : List (String × String × Option ℚ) :=
  match data.own_funds with
  | none => []
  | some of =>
    (match of.CET1 with
     | none => []
     | some cet1 =>
       (match cet1.ordinary_share_capital with
        | some comp => [("010", "Ordinary Share Capital", comp.amount)]
        | none => []) ++
       (match cet1.retained_earnings with
        | some comp => [("020", "Retained Earnings", comp.amount)]
        | none => []) ++
       (match cet1.intangibles_deduction with
        | some comp => [("350", "Intangible Assets Deduction", comp.amount)]
        | none => [])) ++
    (match of.AT1 with
     | some at1 =>
       match at1.instruments with
       | some comp => [("120", "AT1 Instruments", comp.amount)]
       | none => []
     | none => []) ++
    (match of.Tier2 with
     | some tier2 =>
       match tier2.instruments with
       | some comp => [("200", "Tier 2 Instruments", comp.amount)]
       | none => []
     | none => [])

/-- The result of `calculate_summary`: all four totals are always
numbers (the dictionary is initialised to zeros and only overwritten
with numbers). -/
structure CalcSummary where
  total_cet1 : ℚ
  total_at1 : ℚ
  total_tier2 : ℚ
  total_own_funds : ℚ
deriving DecidableEq

/-- Source `component.get("amount", 0)` followed by the `is not None` guard:
a missing or null amount contributes zero. -/
def amountOrZero (oc : Option Component) : ℚ :=
  match oc with
  | some comp => comp.amount.getD 0
  | none => 0

/-- Source `calculate_summary`: independent recomputation of the four totals
from the tier data, with the inclusive zero-when-absent policy. -/
def calculate_summary (data : CorepData) : CalcSummary :=
  match data.own_funds with
  | none => { total_cet1 := 0, total_at1 := 0, total_tier2 := 0, total_own_funds := 0 }
  | some of =>
    let total_cet1 :=
      match of.CET1 with
      | none => 0
      | some cet1 =>
        amountOrZero cet1.ordinary_share_capital +
          amountOrZero cet1.retained_earnings -
          amountOrZero cet1.intangibles_deduction
    let total_at1 :=
      match of.AT1 with
      | some at1 => amountOrZero at1.instruments
      | none => 0
    let total_tier2 :=
      match of.Tier2 with
      | some tier2 => amountOrZero tier2.instruments
      | none => 0
    { total_cet1 := total_cet1
      total_at1 := total_at1
      total_tier2 := total_tier2
      total_own_funds := total_cet1 + total_at1 + total_tier2 }

/-! ## Validation engine (`validator.py`) -/

/-- The closed severity tags used by every flag the engine creates. -/
inductive Severity
  | error
  | warning
  | info
deriving DecidableEq

/-- A validation flag (`ValidationFlag` in `validator.py`). -/
structure VFlag where
  type : Severity
  message : String
  field : Option String
  suggestion : Option String
deriving DecidableEq

/-- Decimal rendering of a total for the mismatch message (stands in for
Python float formatting; the claims never constrain the rendered text). -/
def ratRepr (x : ℚ) : String :=
  if x.den = 1 then toString x.num ++ ".0" else toString x.num ++ "/" ++ toString x.den

/-- Rendering of a stored (possibly null) total. -/
def optRatRepr (o : Option ℚ) : String :=
  match o with
  | none => "None"
  | some x => ratRepr x

/-- Source `_validate_cet1`. -/
def validate_cet1 (of : OwnFunds) : List VFlag :=
  match of.CET1 with
  | none =>
    [{ type := .error
       message := "Missing CET1 section"
       field := some "CET1"
       suggestion := some "Include CET1 capital components in the output" }]
  | some cet1 =>
    (match cet1.ordinary_share_capital with
     | none =>
       [{ type := .warning
          message := "Missing CET1 component: ordinary_share_capital"
          field := some "CET1.ordinary_share_capital"
          suggestion := some "Include ordinary_share_capital if applicable to the bank" }]
     | some _ => []) ++
    (match cet1.retained_earnings with
     | none =>
       [{ type := .warning
          message := "Missing CET1 component: retained_earnings"
          field := some "CET1.retained_earnings"
          suggestion := some "Include retained_earnings if applicable to the bank" }]
     | some _ => []) ++
    (match cet1.intangibles_deduction with
     | some comp =>
       match comp.amount with
       | some deduction =>
         if deduction > 0 then
           [{ type := .warning
              message := "Intangible assets deduction should be negative (deduction from capital)"
              field := some "CET1.intangibles_deduction"
              suggestion := some "Ensure intangible assets are recorded as negative amounts" }]
         else []
       | none => []
     | none => []) ++
    (missingAmountFlag cet1.ordinary_share_capital "ordinary_share_capital" ++
      missingAmountFlag cet1.retained_earnings "retained_earnings" ++
      missingAmountFlag cet1.intangibles_deduction "intangibles_deduction")
where
  /-- One step of the missing-amounts loop over `cet1.items()` (iterated
  in the insertion order of the generator). -/
  missingAmountFlag (oc : Option Component) (name : String) : List VFlag :=
    match oc with
    | some comp =>
      match comp.amount with
      | none =>
        [{ type := .info
           message := "No amount specified for CET1 component: " ++ name
           field := some ("CET1." ++ name)
           suggestion := some "Provide amount or confirm component is not applicable" }]
      | some _ => []
    | none => []

/-- Source `_validate_at1`. -/
def validate_at1 (of : OwnFunds) : List VFlag :=
  match of.AT1 with
  | none =>
    [{ type := .info
       message := "No AT1 capital reported"
       field := some "AT1"
       suggestion := some "Confirm if bank has no AT1 instruments or include them if applicable" }]
  | some at1 =>
    match at1.instruments with
    | some comp =>
      match comp.amount with
      | some amount =>
        if amount = 0 then
          [{ type := .info
             message := "AT1 instruments reported as zero"
             field := some "AT1.instruments"
             suggestion := some "Confirm if bank truly has no AT1 instruments" }]
        else []
      | none =>
        [{ type := .warning
           message := "AT1 instruments amount is null"
           field := some "AT1.instruments"
           suggestion := some "Provide amount or confirm no AT1 instruments exist" }]
    | none =>
      [{ type := .warning
         message := "Missing AT1 instruments section"
         field := some "AT1.instruments"
         suggestion := some "Include AT1 instruments if applicable" }]

/-- Source `_validate_tier2`. -/
def validate_tier2 (of : OwnFunds) : List VFlag :=
  match of.Tier2 with
  | none =>
    [{ type := .info
       message := "No Tier 2 capital reported"
       field := some "Tier2"
       suggestion := some "Confirm if bank has no Tier 2 instruments or include them if applicable" }]
  | some tier2 =>
    match tier2.instruments with
    | some comp =>
      match comp.amount with
      | some amount =>
        if amount = 0 then
          [{ type := .info
             message := "Tier 2 instruments reported as zero"
             field := some "Tier2.instruments"
             suggestion := some "Confirm if bank truly has no Tier 2 instruments" }]
        else []
      | none =>
        [{ type := .warning
           message := "Tier 2 instruments amount is null"
           field := some "Tier2.instruments"
           suggestion := some "Provide amount or confirm no Tier 2 instruments exist" }]
    | none =>
      [{ type := .warning
         message := "Missing Tier 2 instruments section"
         field := some "Tier2.instruments"
         suggestion := some "Include Tier 2 instruments if applicable" }]

/-- Source `component.get("amount") not in [None, 0]` for one CET1 component. -/
def hasAmt (oc : Option Component) : Bool :=
  match oc with
  | some comp =>
    match comp.amount with
    | some a => a != 0
    | none => false
  | none => false

/-- Source `_validate_cross_components`. -/
def validate_cross_components (of : OwnFunds) : List VFlag :=
  let has_cet1 :=
    match of.CET1 with
    | some cet1 =>
      hasAmt cet1.ordinary_share_capital || hasAmt cet1.retained_earnings ||
        hasAmt cet1.intangibles_deduction
    | none => false
  let has_at1 :=
    match of.AT1 with
    | some at1 => hasAmt at1.instruments
    | none => false
  let has_tier2 :=
    match of.Tier2 with
    | some tier2 => hasAmt tier2.instruments
    | none => false
  (if has_cet1 && !has_at1 && !has_tier2 then
    [{ type := .info
       message := "Only CET1 capital reported - confirm no AT1 or Tier 2 instruments exist"
       field := some "cross_component"
       suggestion := some "Review if bank should have AT1 or Tier 2 capital instruments" }]
   else []) ++
  (if (has_at1 || has_tier2) && !has_cet1 then
    [{ type := .error
       message := "Higher tier capital reported but no CET1 capital found"
       field := some "cross_component"
       suggestion := some "CET1 capital is typically required before AT1/Tier 2 instruments" }]
   else [])

/-- One field comparison of the summary-consistency loop. -/
def summaryCheck (key : String) (actual : Option ℚ) (expected : ℚ) : List VFlag :=
  if actual ≠ some expected then
    [{ type := .warning
       message := "Summary " ++ key ++ " mismatch: expected " ++ ratRepr expected ++
         ", got " ++ optRatRepr actual
       field := some ("summary." ++ key)
       suggestion := some "Verify summary calculations are correct" }]
  else []

/-- Source `_validate_summary`: recompute the totals with `calculate_summary`
and compare field by field (the pipeline always stores all four summary
keys, so the `if key in summary` guard of the source is always true). -/
def validate_summary (data : CorepData) : List VFlag :=
  match data.summary with
  | none =>
    [{ type := .warning
       message := "Missing summary section"
       field := some "summary"
       suggestion := some "Include summary calculations for total capital amounts" }]
  | some s =>
    let calcd := calculate_summary data
    summaryCheck "total_cet1" s.total_cet1 calcd.total_cet1 ++
      summaryCheck "total_at1" s.total_at1 calcd.total_at1 ++
      summaryCheck "total_tier2" s.total_tier2 calcd.total_tier2 ++
      summaryCheck "total_own_funds" s.total_own_funds calcd.total_own_funds

/-- One step of the audit-trail loop: warn when a present component has
an empty `justification_refs` list. -/
def refsFlag (tierName compName : String) (oc : Option Component) : List VFlag :=
  match oc with
  | some comp =>
    if comp.justification_refs.isEmpty then
      [{ type := .warning
         message := "Missing regulatory references for " ++ tierName ++ "." ++ compName
         field := some (tierName ++ "." ++ compName ++ ".justification_refs")
         suggestion := some "Include regulatory source references for audit trail" }]
    else []
  | none => []

/-- Source `_validate_regulatory_compliance`. -/
def validate_regulatory_compliance (data : CorepData) : List VFlag :=
  (match data.currency with
   | none =>
     [{ type := .warning
        message := "Missing currency specification"
        field := some "currency"
        suggestion := some "Specify reporting currency (typically GBP for UK banks)" }]
   | some _ => []) ++
  (match data.reporting_date with
   | none =>
     [{ type := .info
        message := "Missing reporting date"
        field := some "reporting_date"
        suggestion := some "Include reporting date for the COREP submission" }]
   | some _ => []) ++
  (if data.template ≠ some "C 01.00" then
    [{ type := .warning
       message := "Unexpected template reference: " ++ optStrRepr data.template
       field := some "template"
       suggestion := some "Ensure template is set to C 01.00 for Own Funds reporting" }]
   else []) ++
  (match data.own_funds with
   | none => []
   | some of =>
     (match of.CET1 with
      | some cet1 =>
        refsFlag "CET1" "ordinary_share_capital" cet1.ordinary_share_capital ++
          refsFlag "CET1" "retained_earnings" cet1.retained_earnings ++
          refsFlag "CET1" "intangibles_deduction" cet1.intangibles_deduction
      | none => []) ++
     (match of.AT1 with
      | some at1 => refsFlag "AT1" "instruments" at1.instruments
      | none => []) ++
     (match of.Tier2 with
      | some tier2 => refsFlag "Tier2" "instruments" tier2.instruments
      | none => []))
where
  /-- Rendering of `data.get("template")` inside the f-string. -/
  optStrRepr (o : Option String) : String :=
    match o with
    | none => "None"
    | some s => s

/-- Source `validate_corep`: the ordered composition of the rule groups, with
the structural short-circuit when `own_funds` is missing. -/
def validate_corep (data : CorepData) : List VFlag :=
  match data.own_funds with
  | none =>
    [{ type := .error
       message := "Missing own_funds section in structured output"
       field := some "own_funds"
       suggestion := some "Ensure the LLM output includes the own_funds structure" }]
  | some of =>
    validate_cet1 of ++ validate_at1 of ++ validate_tier2 of ++
      validate_cross_components of ++ validate_summary data ++
      validate_regulatory_compliance data

/-- Source `format_validation_flags`: group the flags by severity (the three
groups of the source dictionary; every flag carries one of the three
closed severities, so the fallback branch for unexpected types is
unreachable). -/
def format_validation_flags (flags : List VFlag) :
    List VFlag × List VFlag × List VFlag :=
  (flags.filter fun f => f.type == Severity.error,
    flags.filter fun f => f.type == Severity.warning,
    flags.filter fun f => f.type == Severity.info)

/-- The validation report (`generate_validation_report` output; the
recommendation list, which no claim concerns, is not modelled). -/
structure VReport where
  total_flags : ℕ
  errors : ℕ
  warnings : ℕ
  info : ℕ
  status : String
  flags_errors : List VFlag
  flags_warnings : List VFlag
  flags_info : List VFlag
deriving DecidableEq

/-- Source `generate_validation_report`. -/
def generate_validation_report (data : CorepData) : VReport :=
  let flags := validate_corep data
  let grouped := format_validation_flags flags
  { total_flags := flags.length
    errors := grouped.1.length
    warnings := grouped.2.1.length
    info := grouped.2.2.length
    status := if grouped.1.length = 0 then "PASS" else "FAIL"
    flags_errors := grouped.1
    flags_warnings := grouped.2.1
    flags_info := grouped.2.2 }

/-! ## Retrieval index (`retriever.py`, `RegulatoryRetriever`)

The embedding model and the FAISS index are the two opaque capabilities
of the spec.  The embedder is an injected function `String → List ℚ`;
`faiss.IndexFlatL2` over the embedding list follows the documented FAISS
contract: `index.search(q, k)` returns the `k` nearest vectors by
squared Euclidean distance in ascending order, padding with distance
`FLT_MAX` and id `-1` when fewer than `k` vectors are indexed. -/

/-- The retriever state after `__init__`: the parallel arrays plus the
built index (`self.documents`, `self.sources`, `self.texts`, and the
FAISS index holding the embeddings). -/
structure RState where
  documents : List Doc
  sources : List String
  texts : List String
  index : List (List ℚ)
deriving DecidableEq

/-- One search result dictionary. -/
structure RMatch where
  source : String
  text : String
  score : ℚ
  full_text : String
deriving DecidableEq

/-- Source `numpy` shape of the encoded embedding matrix: `shape[1]` exists only
when at least one vector was encoded (encoding an empty document list
yields a one-dimensional empty array). -/
def npShape1 (es : List (List ℚ)) : Option ℕ :=
  match es with
  | [] => none
  | v :: _ => some v.length

/-- Squared Euclidean distance (what `IndexFlatL2` scores by). -/
def sqDist (a b : List ℚ) : ℚ :=
  ((a.zip b).map fun p => (p.1 - p.2) ^ 2).sum

/-- The `FLT_MAX` padding distance FAISS reports for missing neighbours. -/
def fltMax : ℚ := 2 ^ 128 - 2 ^ 104

/-- Insert a scored id into a distance-ascending list (stable: equal
distances keep the earlier id first). -/
def insertScored (p : ℚ × ℤ) : List (ℚ × ℤ) → List (ℚ × ℤ)
  | [] => [p]
  | q :: t => if p.1 < q.1 then p :: q :: t else q :: insertScored p t

/-- All indexed vectors scored against the query and sorted by ascending
distance. -/
def scoredAscending (index : List (List ℚ)) (qv : List ℚ) : List (ℚ × ℤ) :=
  (index.enum.map fun p => (sqDist qv p.2, (p.1 : ℤ))).foldr insertScored []

/-- Source `index.search(q, k)` of `faiss.IndexFlatL2`: the `k` best
(distance, id) pairs in ascending distance order, padded with
`(FLT_MAX, -1)` entries when `k` exceeds the number of indexed vectors. -/
def faissSearch (index : List (List ℚ)) (qv : List ℚ) (k : ℕ) : List (ℚ × ℤ) :=
  let sorted := scoredAscending index qv
  sorted.take k ++ List.replicate (k - sorted.length) (fltMax, (-1 : ℤ))

/-- Python list indexing, including the negative-index convention
(`l[-1]` is the last element); out-of-range access is `none`
(an `IndexError` in Python). -/
def pyIdx (l : List α) (i : ℤ) : Option α :=
  if 0 ≤ i then l.get? i.toNat
  else if (-i).toNat ≤ l.length then l.get? (l.length - (-i).toNat)
  else none

/-- The result-building loop of `RegulatoryRetriever.search`: for each
`(distance, idx)` pair, keep the pair when `idx < len(self.documents)`
and build the result dictionary from `sources[idx]` / `texts[idx]`
(an out-of-range access becomes the Python `IndexError`). -/
def searchLoop (docsLen : ℕ) (sources texts : List String) :
    List (ℚ × ℤ) → Except String (List RMatch)
  | [] => .ok []
  | (distance, idx) :: rest =>
    if idx < (docsLen : ℤ) then
      match pyIdx sources idx, pyIdx texts idx with
      | some src, some txt =>
        match searchLoop docsLen sources texts rest with
        | .ok tail =>
          .ok ({ source := src
                 text := { data := txt.data.take 1000 }
                 score := distance
                 full_text := txt } :: tail)
        | .error e => .error e
      | _, _ => .error "IndexError: list index out of range"
    else searchLoop docsLen sources texts rest

/-- Source `RegulatoryRetriever.search` (with the embedder injected): encode the
query, run the FAISS search, and build the filtered result list. -/
def search (st : RState) (E : String → List ℚ) (query : String) (k : ℕ) :
    Except String (List RMatch) :=
  let q_emb := E query
  let di := faissSearch st.index q_emb k
  searchLoop st.documents.length st.sources st.texts di

/-- Source `RegulatoryRetriever.__init__` on a cache miss (with the embedder
injected): build the parallel arrays, encode the texts, and build the
index; reading `self.embeddings.shape[1]` in `_build_index` raises an
`IndexError` when no document was encoded. -/
def mkRetriever (E : String → List ℚ) (documents : List Doc) :
    Except String RState :=
  let texts := documents.map fun d => d.text
  let sources := documents.map fun d => d.source
  let embeddings := texts.map E
  match npShape1 embeddings with
  | none => .error "IndexError: tuple index out of range"
  | some _ => .ok { documents := documents, sources := sources, texts := texts, index := embeddings }

/-! ## Accessors and shared lemmas -/

/-- The ordinary share capital component of a record, when present. -/
def cOrd (data : CorepData) : Option Component :=
  (data.own_funds.bind fun of => of.CET1).bind fun c => c.ordinary_share_capital

/-- The retained earnings component of a record, when present. -/
def cRet (data : CorepData) : Option Component :=
  (data.own_funds.bind fun of => of.CET1).bind fun c => c.retained_earnings

/-- The intangibles deduction component of a record, when present. -/
def cInt (data : CorepData) : Option Component :=
  (data.own_funds.bind fun of => of.CET1).bind fun c => c.intangibles_deduction

/-- The AT1 instruments component of a record, when present. -/
def cAT1 (data : CorepData) : Option Component :=
  (data.own_funds.bind fun of => of.AT1).bind fun t => t.instruments

/-- The Tier2 instruments component of a record, when present. -/
def cT2 (data : CorepData) : Option Component :=
  (data.own_funds.bind fun of => of.Tier2).bind fun t => t.instruments

/-- The error-severity flags of a flag list. -/
def errFilter (flags : List VFlag) : List VFlag :=
  flags.filter fun f => f.type == Severity.error

theorem errFilter_append (l1 l2 : List VFlag) :
    errFilter (l1 ++ l2) = errFilter l1 ++ errFilter l2 :=
  List.filter_append ..

theorem summaryCheck_mem (key : String) (a : Option ℚ) (e : ℚ) (h : a ≠ some e) :
    ∃ f ∈ summaryCheck key a e,
      f.type = Severity.warning ∧ f.field = some ("summary." ++ key) := by
  simp only [summaryCheck, if_pos h]
  exact ⟨_, List.mem_singleton_self _, rfl, rfl⟩

theorem pyOrZero_eq_getD (o : Option ℚ) : pyOrZero o = o.getD 0 := by
  cases o with
  | none => rfl
  | some a =>
    simp only [pyOrZero, Option.getD_some, beq_iff_eq]
    by_cases h : a = 0 <;> simp [h]

/-- The scenario text of the worked example in the spec. -/
def c4text : String :=
  "The bank has £120m ordinary share capital, £30m retained earnings, £10m AT1 instruments, and £8m intangible assets"

/-! ## Claims -/

/-- C10: for every query text and every retrieved-document list, the
output record of the pattern strategy contains all five leaf components as
present entries, and mapping it to template rows emits exactly the five
rows with codes 010, 020, 350, 120, 200 (in the fixed emission
order), even when amounts are null. -/
theorem c10_all_components_and_five_rows (q : String) (docs : List Doc) :
    (cOrd (generate_corep_output q docs)).isSome = true ∧
    (cRet (generate_corep_output q docs)).isSome = true ∧
    (cInt (generate_corep_output q docs)).isSome = true ∧
    (cAT1 (generate_corep_output q docs)).isSome = true ∧
    (cT2 (generate_corep_output q docs)).isSome = true ∧
    ((map_to_template (generate_corep_output q docs)).map fun r => r.1) =
      ["010", "020", "350", "120", "200"] :=
  ⟨rfl, rfl, rfl, rfl, rfl, rfl⟩

/-- A record leaf amount with absent treated as zero. -/
def leafAmtD (oc : Option Component) : ℚ := (oc.bind fun c => c.amount).getD 0

/-- The CET1 total the extractor computes from a query. -/
def extTotalCet1 (q : String) : ℚ :=
  pyOrZero (extract_amount ordinaryKws q) + pyOrZero (extract_amount retainedKws q) -
    pyOrZero (extract_amount intangibleKws q)

/-- The AT1 total the extractor computes from a query. -/
def extTotalAt1 (q : String) : ℚ := pyOrZero (extract_amount at1Kws q)

/-- The Tier2 total the extractor computes from a query. -/
def extTotalT2 (q : String) : ℚ := pyOrZero (extract_amount tier2Kws q)

/-- C5: for every input to the pattern strategy, the summary of the
produced record satisfies `total_cet1 = ordinary + retained −
intangibles_deduction`, `total_at1 = at1`, `total_tier2 = tier2`,
`total_own_funds = total_cet1 + total_at1 + total_tier2` (absent leaf
amounts treated as 0), and every total is stored as absent exactly when
its computed value is not positive. -/
theorem c5_summary_totals_policy (q : String) (docs : List Doc) :
    ((generate_corep_output q docs).summary =
      some { total_cet1 :=
               if 0 < extTotalCet1 q then some (extTotalCet1 q) else none
             total_at1 :=
               if 0 < extTotalAt1 q then some (extTotalAt1 q) else none
             total_tier2 :=
               if 0 < extTotalT2 q then some (extTotalT2 q) else none
             total_own_funds :=
               if 0 < extTotalCet1 q + extTotalAt1 q + extTotalT2 q then
                 some (extTotalCet1 q + extTotalAt1 q + extTotalT2 q)
               else none }) ∧
    extTotalCet1 q =
      leafAmtD (cOrd (generate_corep_output q docs)) +
        leafAmtD (cRet (generate_corep_output q docs)) -
        leafAmtD (cInt (generate_corep_output q docs)) ∧
    extTotalAt1 q = leafAmtD (cAT1 (generate_corep_output q docs)) ∧
    extTotalT2 q = leafAmtD (cT2 (generate_corep_output q docs)) := by
  refine ⟨?_, ?_, ?_, ?_⟩ <;>
    simp only [generate_corep_output, extTotalCet1, extTotalAt1, extTotalT2,
      leafAmtD, cOrd, cRet, cInt, cAT1, cT2, pyOrZero_eq_getD, Option.bind_some,
      Option.some_bind, gt_iff_lt]

theorem c4aux_ordinary : extract_amount ordinaryKws c4text = some 120 := by decide

theorem c4aux_retained : extract_amount retainedKws c4text = some 30 := by decide

theorem c4aux_at1 : extract_amount at1Kws c4text = some 10 := by decide

theorem c4aux_intangible : extract_amount intangibleKws c4text = some 8 := by decide

theorem c4aux_total :
    ((generate_corep_output c4text []).summary.bind fun s => s.total_cet1) =
      some 142 := by
  have h : extTotalCet1 c4text = 142 := by
    rw [extTotalCet1, c4aux_ordinary, c4aux_retained, c4aux_intangible,
      pyOrZero_eq_getD, pyOrZero_eq_getD, pyOrZero_eq_getD]
    norm_num
  show (if 0 < extTotalCet1 c4text then some (extTotalCet1 c4text) else none) =
    some 142
  rw [h]
  norm_num

/-- C4: on the scenario text of the spec (with any retrieved documents),
pattern extraction stores ordinary share capital 120, retained earnings
30, AT1 instruments 10, intangibles deduction 8, and total CET1 142. -/
theorem c4_scenario_extraction (docs : List Doc) :
    ((cOrd (generate_corep_output c4text docs)).bind fun c => c.amount) = some 120 ∧
    ((cRet (generate_corep_output c4text docs)).bind fun c => c.amount) = some 30 ∧
    ((cAT1 (generate_corep_output c4text docs)).bind fun c => c.amount) = some 10 ∧
    ((cInt (generate_corep_output c4text docs)).bind fun c => c.amount) = some 8 ∧
    ((generate_corep_output c4text docs).summary.bind fun s => s.total_cet1) =
      some 142 :=
  ⟨c4aux_ordinary, c4aux_retained, c4aux_at1, c4aux_intangible, c4aux_total⟩

/-- C7: for every structured record, the report status is `FAIL` exactly
when the number of error-severity flags is positive; warnings and info
alone never make it `FAIL`. -/
theorem c7_fail_iff_errors (data : CorepData) :
    (generate_validation_report data).status = "FAIL" ↔
      0 < (errFilter (validate_corep data)).length := by
  simp only [generate_validation_report, format_validation_flags, errFilter]
  by_cases h : ((validate_corep data).filter fun f => f.type == Severity.error).length = 0
  · simp [h]
  · simp [h, Nat.pos_of_ne_zero h]

/-- A record with all five components present and populated, matching
summary, full provenance, and complete metadata. -/
def mkFullRecord (oa ra ia aa ta : ℚ) (refs : List String) (cur d8 : String) :
    CorepData :=
  { template := some "C 01.00"
    currency := some cur
    reporting_date := some d8
    own_funds := some
      { CET1 := some
          { ordinary_share_capital :=
              some { amount := some oa, corep_row := "010", justification_refs := refs,
                     explanation := "Extracted from user query" }
            retained_earnings :=
              some { amount := some ra, corep_row := "020", justification_refs := refs,
                     explanation := "Extracted from user query" }
            intangibles_deduction :=
              some { amount := some ia, corep_row := "350", justification_refs := refs,
                     explanation := "Extracted from user query" } }
        AT1 := some
          { instruments :=
              some { amount := some aa, corep_row := "120", justification_refs := refs,
                     explanation := "Extracted from user query" } }
        Tier2 := some
          { instruments :=
              some { amount := some ta, corep_row := "200", justification_refs := refs,
                     explanation := "Extracted from user query" } } }
    data_gaps := []
    summary := some
      { total_cet1 := some (oa + ra - ia)
        total_at1 := some aa
        total_tier2 := some ta
        total_own_funds := some (oa + ra - ia + aa + ta) } }

/-- A concrete record with every component present. -/
def rc3 : CorepData := mkFullRecord 1 2 3 4 5 ["ref"] "GBP" "2026-01-31"

/-- The numeric value of a regulatory row code (for the ascending-order
comparison the claim states). -/
def rowCodeVal (s : String) : ℕ := digitsToNat s.data

/-- C3 counterexample: on a record with all five components present, the
mapper emits the row codes in the order 010, 020, 350, 120, 200, which
is not ascending (350 precedes 120 and 200), refuting the claimed
ascending order 010 < 020 < 120 < 200 < 350. -/
theorem c3_counterexample :
    ((map_to_template rc3).map fun r => r.1) = ["010", "020", "350", "120", "200"] ∧
    ¬ List.Chain' (fun a b => rowCodeVal a < rowCodeVal b)
        ((map_to_template rc3).map fun r => r.1) := by
  refine ⟨rfl, ?_⟩
  show ¬ List.Chain' (fun a b => rowCodeVal a < rowCodeVal b)
    ["010", "020", "350", "120", "200"]
  simp only [List.chain'_cons, List.chain'_singleton, and_true]
  intro h
  exact absurd h.2.2.1 (by decide)

/-- C3 amended: the mapper emits a row exactly for each component present
in the record, and the emitted row codes always form a subsequence of the
fixed emission order 010, 020, 350, 120, 200 (CET1 rows first, including
the 350 deduction, then AT1 120, then Tier2 200) regardless of input
ordering. -/
theorem c3_amended (data : CorepData) :
    ((map_to_template data).map fun r => r.1).Sublist
      ["010", "020", "350", "120", "200"] ∧
    ("010" ∈ (map_to_template data).map (fun r => r.1) ↔ (cOrd data).isSome = true) ∧
    ("020" ∈ (map_to_template data).map (fun r => r.1) ↔ (cRet data).isSome = true) ∧
    ("350" ∈ (map_to_template data).map (fun r => r.1) ↔ (cInt data).isSome = true) ∧
    ("120" ∈ (map_to_template data).map (fun r => r.1) ↔ (cAT1 data).isSome = true) ∧
    ("200" ∈ (map_to_template data).map (fun r => r.1) ↔ (cT2 data).isSome = true) := by
  rcases data with ⟨t, c, d, _ | ⟨_ | ⟨_ | o, _ | r, _ | i⟩, _ | ⟨_ | ai⟩, _ | ⟨_ | ti⟩⟩, g, s⟩ <;>
    refine ⟨?_, ?_, ?_, ?_, ?_, ?_⟩ <;>
    first
      | (simp [map_to_template, cOrd, cRet, cInt, cAT1, cT2]
         done)
      | (simp only [map_to_template, List.map_append, List.map_cons, List.map_nil,
          List.nil_append, List.append_nil, List.cons_append]
         decide)

/-- C6: `calculate_summary` always yields the four totals as numbers
(`CalcSummary` carries plain rationals), with zero for any tier with
nothing present, and whenever the stored summary differs from this
recomputation on a total field, the summary-consistency check emits a
`Warning` flag for that field. -/
theorem c6_summary_recompute_and_mismatch (data : CorepData) (s : Summary)
    (hs : data.summary = some s) :
    (data.own_funds = none →
      calculate_summary data =
        { total_cet1 := 0, total_at1 := 0, total_tier2 := 0, total_own_funds := 0 }) ∧
    (∀ of, data.own_funds = some of →
      (of.CET1 = none → (calculate_summary data).total_cet1 = 0) ∧
      (of.AT1 = none → (calculate_summary data).total_at1 = 0) ∧
      (of.AT1 = some { instruments := none } → (calculate_summary data).total_at1 = 0) ∧
      (of.Tier2 = none → (calculate_summary data).total_tier2 = 0) ∧
      (of.Tier2 = some { instruments := none } →
        (calculate_summary data).total_tier2 = 0)) ∧
    (s.total_cet1 ≠ some (calculate_summary data).total_cet1 →
      ∃ f ∈ validate_summary data,
        f.type = Severity.warning ∧ f.field = some "summary.total_cet1") ∧
    (s.total_at1 ≠ some (calculate_summary data).total_at1 →
      ∃ f ∈ validate_summary data,
        f.type = Severity.warning ∧ f.field = some "summary.total_at1") ∧
    (s.total_tier2 ≠ some (calculate_summary data).total_tier2 →
      ∃ f ∈ validate_summary data,
        f.type = Severity.warning ∧ f.field = some "summary.total_tier2") ∧
    (s.total_own_funds ≠ some (calculate_summary data).total_own_funds →
      ∃ f ∈ validate_summary data,
        f.type = Severity.warning ∧ f.field = some "summary.total_own_funds") := by
  refine ⟨fun h => by simp [calculate_summary, h], fun of hof => ?_, ?_, ?_, ?_, ?_⟩
  · refine ⟨fun h => ?_, fun h => ?_, fun h => ?_, fun h => ?_, fun h => ?_⟩ <;>
      simp [calculate_summary, hof, h, amountOrZero]
  all_goals
    intro hm
    simp only [validate_summary, hs, List.mem_append]
    obtain ⟨f, hf, h1, h2⟩ := summaryCheck_mem _ _ _ hm
    exact ⟨f, by tauto, h1, h2⟩

/-- A stored summary that disagrees with the recomputed totals. -/
def s6 : Summary :=
  { total_cet1 := some 5, total_at1 := none, total_tier2 := none,
    total_own_funds := none }

/-- A record whose stored summary drifted from the recomputation. -/
def rc6 : CorepData :=
  { template := none, currency := none, reporting_date := none,
    own_funds := none, data_gaps := [], summary := some s6 }

theorem c6_witness :
    rc6.summary = some s6 ∧
    ((rc6.own_funds = none →
      calculate_summary rc6 =
        { total_cet1 := 0, total_at1 := 0, total_tier2 := 0, total_own_funds := 0 }) ∧
    (∀ of, rc6.own_funds = some of →
      (of.CET1 = none → (calculate_summary rc6).total_cet1 = 0) ∧
      (of.AT1 = none → (calculate_summary rc6).total_at1 = 0) ∧
      (of.AT1 = some { instruments := none } → (calculate_summary rc6).total_at1 = 0) ∧
      (of.Tier2 = none → (calculate_summary rc6).total_tier2 = 0) ∧
      (of.Tier2 = some { instruments := none } →
        (calculate_summary rc6).total_tier2 = 0)) ∧
    (s6.total_cet1 ≠ some (calculate_summary rc6).total_cet1 →
      ∃ f ∈ validate_summary rc6,
        f.type = Severity.warning ∧ f.field = some "summary.total_cet1") ∧
    (s6.total_at1 ≠ some (calculate_summary rc6).total_at1 →
      ∃ f ∈ validate_summary rc6,
        f.type = Severity.warning ∧ f.field = some "summary.total_at1") ∧
    (s6.total_tier2 ≠ some (calculate_summary rc6).total_tier2 →
      ∃ f ∈ validate_summary rc6,
        f.type = Severity.warning ∧ f.field = some "summary.total_tier2") ∧
    (s6.total_own_funds ≠ some (calculate_summary rc6).total_own_funds →
      ∃ f ∈ validate_summary rc6,
        f.type = Severity.warning ∧ f.field = some "summary.total_own_funds")) :=
  ⟨rfl, c6_summary_recompute_and_mismatch rc6 s6 rfl⟩

/-! ### Which rule groups can produce error flags -/

theorem errFilter_nil : errFilter [] = [] := rfl

theorem errFilter_cons_warning (m : String) (fl sg : Option String) (rest : List VFlag) :
    errFilter ({ type := .warning, message := m, field := fl, suggestion := sg } :: rest) =
      errFilter rest := rfl

theorem errFilter_cons_info (m : String) (fl sg : Option String) (rest : List VFlag) :
    errFilter ({ type := .info, message := m, field := fl, suggestion := sg } :: rest) =
      errFilter rest := rfl

theorem errFilter_cons_error (m : String) (fl sg : Option String) (rest : List VFlag) :
    errFilter ({ type := .error, message := m, field := fl, suggestion := sg } :: rest) =
      { type := Severity.error, message := m, field := fl, suggestion := sg } ::
        errFilter rest := rfl

theorem errFilter_summaryCheck (key : String) (a : Option ℚ) (e : ℚ) :
    errFilter (summaryCheck key a e) = [] := by
  simp only [summaryCheck]
  split_ifs <;> rfl

theorem errFilter_refsFlag (tn cn : String) (oc : Option Component) :
    errFilter (refsFlag tn cn oc) = [] := by
  rcases oc with _ | comp
  · rfl
  · simp only [refsFlag]
    split_ifs <;> rfl

theorem errFilter_validate_cet1 (of : OwnFunds) (c1 : CET1Tier)
    (h : of.CET1 = some c1) : errFilter (validate_cet1 of) = [] := by
  rcases c1 with ⟨_ | ⟨_ | oa, o2, o3, o4⟩, _ | ⟨_ | ra, r2, r3, r4⟩, _ | ⟨_ | ia, i2, i3, i4⟩⟩ <;>
    simp [validate_cet1, h, validate_cet1.missingAmountFlag, errFilter_append,
      errFilter_nil, errFilter_cons_warning, errFilter_cons_info, apply_ite errFilter]

theorem errFilter_validate_at1 (of : OwnFunds) : errFilter (validate_at1 of) = [] := by
  rcases of with ⟨c1, _ | ⟨_ | ⟨_ | aa, a2, a3, a4⟩⟩, t2⟩ <;>
    simp [validate_at1, errFilter_nil, errFilter_cons_warning, errFilter_cons_info,
      apply_ite errFilter]

theorem errFilter_validate_tier2 (of : OwnFunds) : errFilter (validate_tier2 of) = [] := by
  rcases of with ⟨c1, a1, _ | ⟨_ | ⟨_ | ta, t2_, t3, t4⟩⟩⟩ <;>
    simp [validate_tier2, errFilter_nil, errFilter_cons_warning, errFilter_cons_info,
      apply_ite errFilter]

theorem errFilter_validate_summary (data : CorepData) :
    errFilter (validate_summary data) = [] := by
  rcases data with ⟨t, c, d, of, g, _ | s⟩ <;>
    simp [validate_summary, errFilter_append, errFilter_nil, errFilter_cons_warning,
      errFilter_summaryCheck]

theorem errFilter_validate_regulatory (data : CorepData) :
    errFilter (validate_regulatory_compliance data) = [] := by
  rcases data with ⟨_ | t, _ | c, _ | d, _ | ⟨_ | ⟨o, r, i⟩, _ | ⟨ai⟩, _ | ⟨ti⟩⟩, g, s⟩ <;>
    simp [validate_regulatory_compliance, errFilter_append, errFilter_nil,
      errFilter_cons_warning, errFilter_cons_info, errFilter_refsFlag,
      apply_ite errFilter]

/-- The single error flag of the capital-stack cross-component rule. -/
def crossErrorFlag : VFlag :=
  { type := .error
    message := "Higher tier capital reported but no CET1 capital found"
    field := some "cross_component"
    suggestion := some "CET1 capital is typically required before AT1/Tier 2 instruments" }

/-- C8: for every record whose Tier2 instruments amount is present and
nonzero while the CET1 tier is present but has no component with a
non-null nonzero amount, validation produces exactly one error-severity
flag, namely the capital-stack violation. -/
theorem c8_capital_stack_error (data : CorepData) (of : OwnFunds) (c1 : CET1Tier)
    (t2 : InstrTier) (comp : Component) (a : ℚ)
    (hof : data.own_funds = some of) (hc1 : of.CET1 = some c1)
    (ht2 : of.Tier2 = some t2) (hin : t2.instruments = some comp)
    (ha : comp.amount = some a) (hnz : a ≠ 0)
    (he1 : hasAmt c1.ordinary_share_capital = false)
    (he2 : hasAmt c1.retained_earnings = false)
    (he3 : hasAmt c1.intangibles_deduction = false) :
    errFilter (validate_corep data) = [crossErrorFlag] := by
  have hat : hasAmt t2.instruments = true := by
    rw [hin]
    simp [hasAmt, ha, hnz]
  simp only [validate_corep, hof, errFilter_append,
    errFilter_validate_cet1 of c1 hc1, errFilter_validate_at1 of,
    errFilter_validate_tier2 of, errFilter_validate_summary data,
    errFilter_validate_regulatory data, List.nil_append, List.append_nil]
  simp [validate_cross_components, hc1, ht2, hat, he1, he2, he3, crossErrorFlag,
    errFilter_append, errFilter_nil, errFilter_cons_error, errFilter_cons_info,
    apply_ite errFilter]

/-- A concrete record with empty CET1 components and a populated Tier2. -/
def rc8c1 : CET1Tier :=
  { ordinary_share_capital := none, retained_earnings := none,
    intangibles_deduction := none }

/-- The populated Tier2 tier of the C8 witness record. -/
def rc8t2 : InstrTier :=
  { instruments :=
      some { amount := some 5
             corep_row := "200"
             justification_refs := ["ref"]
             explanation := "e" } }

/-- The own-funds section of the C8 witness record. -/
def rc8of : OwnFunds := { CET1 := some rc8c1, AT1 := none, Tier2 := some rc8t2 }

/-- The C8 witness record. -/
def rc8 : CorepData :=
  { template := some "C 01.00", currency := some "GBP",
    reporting_date := some "2026-01-31", own_funds := some rc8of,
    data_gaps := [], summary := none }

theorem c8_witness :
    (rc8.own_funds = some rc8of ∧ rc8of.CET1 = some rc8c1 ∧
      rc8of.Tier2 = some rc8t2 ∧
      rc8t2.instruments =
        some { amount := some 5
               corep_row := "200"
               justification_refs := ["ref"]
               explanation := "e" } ∧
      (5 : ℚ) ≠ 0 ∧ hasAmt rc8c1.ordinary_share_capital = false ∧
      hasAmt rc8c1.retained_earnings = false ∧
      hasAmt rc8c1.intangibles_deduction = false) ∧
    errFilter (validate_corep rc8) = [crossErrorFlag] :=
  ⟨⟨rfl, rfl, rfl, rfl, by norm_num, rfl, rfl, rfl⟩,
    c8_capital_stack_error rc8 rc8of rc8c1 rc8t2 _ 5 rfl rfl rfl rfl rfl
      (by norm_num) rfl rfl rfl⟩

/-- C9 amended: a record with all five components present with non-null
amounts, at least one CET1 amount nonzero, a non-positive intangibles
deduction, nonzero AT1 and Tier2 amounts, non-empty provenance on every
component, currency and reporting date present, template `C 01.00`, and
stored summary equal to the recomputed totals validates with zero flags
and status `PASS`. -/
theorem c9_amended (oa ra ia aa ta : ℚ) (refs : List String) (cur d8 : String)
    (hia : ia ≤ 0) (haa : aa ≠ 0) (hta : ta ≠ 0)
    (hcet : oa ≠ 0 ∨ ra ≠ 0 ∨ ia ≠ 0) (hrefs : refs ≠ []) :
    validate_corep (mkFullRecord oa ra ia aa ta refs cur d8) = [] ∧
    (generate_validation_report (mkFullRecord oa ra ia aa ta refs cur d8)).status =
      "PASS" := by
  have hni : ¬ (0 < ia) := not_lt.mpr hia
  have hflags : validate_corep (mkFullRecord oa ra ia aa ta refs cur d8) = [] := by
    obtain ⟨r0, rs, rfl⟩ : ∃ x xs, refs = x :: xs := by
      cases refs with
      | nil => exact absurd rfl hrefs
      | cons x xs => exact ⟨x, xs, rfl⟩
    rcases hcet with h | h | h <;>
      simp [validate_corep, mkFullRecord, validate_cet1,
        validate_cet1.missingAmountFlag, validate_at1, validate_tier2,
        validate_cross_components, hasAmt, validate_summary, summaryCheck,
        calculate_summary, amountOrZero, validate_regulatory_compliance, refsFlag,
        gt_iff_lt, h, haa, hta, hni]
  exact ⟨hflags, by simp [generate_validation_report, format_validation_flags, hflags]⟩

theorem c9_amended_witness :
    ((-8 : ℚ) ≤ 0 ∧ (10 : ℚ) ≠ 0 ∧ (5 : ℚ) ≠ 0 ∧
      ((120 : ℚ) ≠ 0 ∨ (30 : ℚ) ≠ 0 ∨ (-8 : ℚ) ≠ 0) ∧
      (["ref"] : List String) ≠ []) ∧
    validate_corep (mkFullRecord 120 30 (-8) 10 5 ["ref"] "GBP" "2026-01-31") = [] ∧
    (generate_validation_report
      (mkFullRecord 120 30 (-8) 10 5 ["ref"] "GBP" "2026-01-31")).status = "PASS" :=
  ⟨⟨by norm_num, by norm_num, by norm_num, Or.inl (by norm_num), by simp⟩,
    c9_amended 120 30 (-8) 10 5 ["ref"] "GBP" "2026-01-31" (by norm_num)
      (by norm_num) (by norm_num) (Or.inl (by norm_num)) (by simp)⟩

/-- The C9 counterexample record: every component present with a non-null
amount, full provenance, complete metadata, and a stored summary equal to
the recomputed totals — but with a positive intangibles deduction. -/
def rc9 : CorepData := mkFullRecord 120 30 8 10 5 ["ref"] "GBP" "2026-01-31"

/-- C9 counterexample: `rc9` satisfies every hypothesis of the claim (all
five components present with non-null amounts, non-empty provenance,
currency, date and template set, stored summary equal to the recomputed
totals), yet validation emits one flag (the sign warning on the positive
intangibles deduction), refuting "yields zero flags". -/
theorem c9_counterexample :
    (cOrd rc9 = some { amount := some 120
                       corep_row := "010"
                       justification_refs := ["ref"]
                       explanation := "Extracted from user query" } ∧
     cRet rc9 = some { amount := some 30
                       corep_row := "020"
                       justification_refs := ["ref"]
                       explanation := "Extracted from user query" } ∧
     cInt rc9 = some { amount := some 8
                       corep_row := "350"
                       justification_refs := ["ref"]
                       explanation := "Extracted from user query" } ∧
     cAT1 rc9 = some { amount := some 10
                       corep_row := "120"
                       justification_refs := ["ref"]
                       explanation := "Extracted from user query" } ∧
     cT2 rc9 = some { amount := some 5
                      corep_row := "200"
                      justification_refs := ["ref"]
                      explanation := "Extracted from user query" } ∧
     (["ref"] : List String) ≠ [] ∧
     rc9.currency = some "GBP" ∧ rc9.reporting_date = some "2026-01-31" ∧
     rc9.template = some "C 01.00" ∧
     rc9.summary = some { total_cet1 := some (calculate_summary rc9).total_cet1
                          total_at1 := some (calculate_summary rc9).total_at1
                          total_tier2 := some (calculate_summary rc9).total_tier2
                          total_own_funds :=
                            some (calculate_summary rc9).total_own_funds }) ∧
    (validate_corep rc9).length = 1 := by
  refine ⟨⟨rfl, rfl, rfl, rfl, rfl, by simp, rfl, rfl, rfl, rfl⟩, ?_⟩
  have h : validate_corep rc9 =
      [{ type := .warning
         message := "Intangible assets deduction should be negative (deduction from capital)"
         field := some "CET1.intangibles_deduction"
         suggestion := some "Ensure intangible assets are recorded as negative amounts" }] := by
    norm_num [rc9, validate_corep, mkFullRecord, validate_cet1,
      validate_cet1.missingAmountFlag, validate_at1, validate_tier2,
      validate_cross_components, hasAmt, validate_summary, summaryCheck,
      calculate_summary, amountOrZero, validate_regulatory_compliance, refsFlag,
      gt_iff_lt]
  rw [h]
  rfl

/-! ### Retriever claims -/

/-- A concrete injected embedder for the retriever evaluations. -/
def E1 : String → List ℚ := fun _ => [0]

/-- A one-document corpus. -/
def docs1 : List Doc := [{ source := "doc1", text := "text one" }]

/-- The retriever state `__init__` builds for `docs1` under `E1`. -/
def st1 : RState :=
  { documents := docs1, sources := ["doc1"], texts := ["text one"], index := [[0]] }

/-- C1 failing-input evaluation: on a one-document corpus, `search` with
`k = 2` returns two matches — the FAISS padding id `-1` passes the
`idx < len(documents)` filter and Python negative indexing duplicates the
last document — instead of the claimed `min(k, n) = 1` matches. -/
theorem c1_code_bug :
    mkRetriever E1 docs1 = Except.ok st1 ∧
    (search st1 E1 "query" 2).map (fun res => res.map fun m => m.source) =
      Except.ok ["doc1", "doc1"] ∧
    (search st1 E1 "query" 2).map (fun res => res.length) = Except.ok 2 ∧
    min 2 docs1.length = 1 := by
  refine ⟨rfl, ?_, ?_, rfl⟩ <;>
    simp [search, st1, faissSearch, scoredAscending, sqDist, insertScored,
      searchLoop, pyIdx, E1, docs1, Except.map]

/-- The retriever state of an empty corpus (all parallel arrays empty). -/
def emptyRS : RState := { documents := [], sources := [], texts := [], index := [] }

/-- C2 counterexample: on an empty corpus, `__init__` fails with a
generic `IndexError` while reading the embedding matrix shape (not a
distinct `EmptyCorpus` condition), and `search` on an empty-corpus state
raises an `IndexError` (the FAISS sentinel id `-1` passes the bounds
filter and indexes the empty `sources` list) — it neither reports
`EmptyCorpus` nor returns a result list. -/
theorem c2_counterexample :
    search emptyRS E1 "q" 3 = Except.error "IndexError: list index out of range" ∧
    mkRetriever E1 [] = Except.error "IndexError: tuple index out of range" :=
  ⟨rfl, rfl⟩

/-- C2 amended: for every injected embedder, query and requested
`k ≥ 1`, search over an empty corpus state fails with a generic
`IndexError` (not `EmptyCorpus`), and building the retriever on an empty
document list fails with a generic `IndexError` (not `EmptyCorpus`). -/
theorem c2_amended (E : String → List ℚ) (q : String) (k : ℕ) (hk : 1 ≤ k) :
    search emptyRS E q k = Except.error "IndexError: list index out of range" ∧
    mkRetriever E [] = Except.error "IndexError: tuple index out of range" := by
  refine ⟨?_, rfl⟩
  obtain ⟨m, rfl⟩ : ∃ m, k = m + 1 := ⟨k - 1, (Nat.succ_pred_eq_of_pos hk).symm⟩
  simp [search, emptyRS, faissSearch, scoredAscending, searchLoop, pyIdx,
    List.replicate_succ]

theorem c2_amended_witness :
    1 ≤ 3 ∧
    search emptyRS E1 "q" 3 = Except.error "IndexError: list index out of range" ∧
    mkRetriever E1 [] = Except.error "IndexError: tuple index out of range" :=
  ⟨by norm_num, (c2_amended E1 "q" 3 (by norm_num)).1,
    (c2_amended E1 "q" 3 (by norm_num)).2⟩

end Corep
